import Mathlib

/-!
Verification development for the EcoShop browser extension
(repository LiveHack-2025).

The development shallowly embeds the parts of the JavaScript sources that
the checked claims are about:

* the popup scoring pipeline of `extension/popup/popup.js`
  (`handleSustainabilityData`, lines 119-216): weighted composite score,
  per-category display score and rating marker;
* the content script `extension/content.js`: the per-page dispatch gate
  (`hasRequestedData`, `sendToServiceWorker`, the 1 s URL poll) and
  `extractProductInfo`;
* the production service worker (first file of `src/unnamed/part_002`):
  `handleSustainabilityCheck`, `fetchFromApi`, `pollForUpdates`, the brand
  cache and the per-tab badge state.

JavaScript numbers are modelled as exact rationals, `undefined`/`null` as
`Option`, thrown exceptions as `Except`, and the remote gateway as an
environment supplying the HTTP responses the code would observe.
-/

namespace EcoShop

/-! ## Popup scoring pipeline (extension/popup/popup.js, lines 119-216) -/

/-- One entry of the sustainability breakdown object received from the
backend, restricted to the fields the popup reads: `value` (a label such
as "Good") and `score` (the raw category score). A JS `undefined` field
is `none`. Missing keys of the breakdown object are modelled by making
whole entries optional in `Breakdown`. -/
structure MetricData where
  value : Option String
  score : Option ℚ
  deriving DecidableEq, Repr

/-- The breakdown object: one optional `MetricData` per fixed category
(`breakdown[field.key]` may be missing, which popup.js turns into `{}`). -/
structure Breakdown where
  production_and_brand : Option MetricData
  circularity_and_end_of_life : Option MetricData
  material_composition : Option MetricData
  deriving DecidableEq, Repr

/-- The three fixed categories of `fieldOrder` in popup.js. -/
inductive Category where
  | production_and_brand
  | circularity_and_end_of_life
  | material_composition
  deriving DecidableEq, Repr

/-- The iteration order of the popup (`fieldOrder`, popup.js lines 128-132). -/
def fieldOrder : List Category :=
  [Category.production_and_brand, Category.circularity_and_end_of_life,
   Category.material_composition]

/-- The JS expression `breakdown[field.key] || {}` (popup.js line 143):
a missing entry becomes the empty metric object. -/
def getMetric (b : Breakdown) : Category → MetricData
  | Category.production_and_brand =>
      (b.production_and_brand).getD { value := none, score := none }
  | Category.circularity_and_end_of_life =>
      (b.circularity_and_end_of_life).getD { value := none, score := none }
  | Category.material_composition =>
      (b.material_composition).getD { value := none, score := none }

/-- The user weight settings as stored (`settingsData.settings`); a field
may be missing (`none`). -/
structure SettingsWeights where
  production_and_brand : Option ℚ
  circularity_and_end_of_life : Option ℚ
  material_composition : Option ℚ
  deriving DecidableEq, Repr

/-- The JS default idiom `userWeights.key || 5` (popup.js lines 122-124):
a missing weight, and also a weight equal to `0` (falsy in JS), becomes 5. -/
def jsWeightOrDefault (x : Option ℚ) : ℚ :=
  match x with
  | some v => if v = 0 then 5 else v
  | none => 5

/-- The `fieldWeightMap` of popup.js (lines 121-125). -/
def fieldWeightMap (w : SettingsWeights) : Category → ℚ
  | Category.production_and_brand => jsWeightOrDefault w.production_and_brand
  | Category.circularity_and_end_of_life =>
      jsWeightOrDefault w.circularity_and_end_of_life
  | Category.material_composition => jsWeightOrDefault w.material_composition

/-- The accumulation `totalWeight += fieldWeightMap[field.key] || 5`
(popup.js lines 136-139); the map values are already defaulted and
nonzero, so the inner `|| 5` can never fire again. -/
def totalWeight (w : SettingsWeights) : ℚ :=
  fieldOrder.foldl (fun acc f => acc + fieldWeightMap w f) 0

/-- The JS expression
`(score !== undefined && score >= 0) ? score : 0` (popup.js line 182):
the raw score used inside the weighted sum; absent and negative scores
count as 0 there. -/
def calculationScore (m : MetricData) : ℚ :=
  match m.score with
  | some s => if 0 ≤ s then s else 0
  | none => 0

/-- The accumulation
`weightedSum += calculationScore * userWeight / totalWeight`
over `fieldOrder` (popup.js lines 181-185). -/
def weightedSum (b : Breakdown) (w : SettingsWeights) : ℚ :=
  fieldOrder.foldl
    (fun acc f =>
      acc + calculationScore (getMetric b f) * fieldWeightMap w f / totalWeight w)
    0

/-- The final composite of the popup (popup.js line 210):
`let mainScore = weightedSum > 0 ? Math.ceil(weightedSum * 10) : undefined`.
Note that an all-zero weighted sum yields `undefined`, not `0`, and that no
clamping is applied. When the breakdown object itself is absent the popup
skips the accumulation loop, leaving `weightedSum = 0`, which this
definition covers through the all-absent breakdown. -/
def mainScore (b : Breakdown) (w : SettingsWeights) : Option ℤ :=
  if 0 < weightedSum b w then some ⌈weightedSum b w * 10⌉ else none

/-- Composite as the specification words it (spec section 4.4):
`ceil(weightedSum × 10)` clamped to `[0,100]`, always defined. This
definition follows the wording of the spec, for comparison against
`mainScore`, which follows the code. -/
def specComposite (b : Breakdown) (w : SettingsWeights) : ℤ :=
  min 100 (max 0 ⌈weightedSum b w * 10⌉)

/-- The JS expression
`(score !== undefined && score >= 0) ? Math.max(0, Math.min(10, score)) : undefined`
(popup.js line 148): the per-category display score. -/
def displayFieldScore (m : MetricData) : Option ℚ :=
  match m.score with
  | some s => if 0 ≤ s then some (max 0 (min 10 s)) else none
  | none => none

/-- The rating marker of the metric line (popup.js line 151):
`(Rating: s/10)` when a display score exists, otherwise the no-data
marker, rendered with a double dash in place of the number. -/
inductive Rating where
  | score (s : ℚ)
  | noData
  deriving DecidableEq, Repr

/-- Computes the rating marker from a metric entry. -/
def ratingOf (m : MetricData) : Rating :=
  match displayFieldScore m with
  | some s => Rating.score s
  | none => Rating.noData

/-- What the popup produces for rendering: the per-category rating markers
(which, in the code, are computed from the breakdown alone) and the
composite score (which also uses the weights). -/
def popupRender (b : Breakdown) (w : SettingsWeights) :
    (Category → Rating) × Option ℤ :=
  (fun f => ratingOf (getMetric b f), mainScore b w)

/-- The message chosen for a composite score (`getDefaultMessage`,
popup.js lines 293-298); the `score ≥ 70` branch is the "good" band. -/
def getDefaultMessage (score : Option ℤ) : String :=
  match score with
  | none => "We could not find any sustainability information for this product."
  | some s =>
      if 70 ≤ s then "This product has good sustainability practices."
      else if 40 ≤ s then "This product has average sustainability practices."
      else "This product has poor sustainability practices."

/-- The color band of a score (`getScoreColor`, popup.js lines 282-287). -/
def getScoreColor (score : Option ℤ) : String :=
  match score with
  | none => "#ccc"
  | some s => if 70 ≤ s then "#4caf50" else if 40 ≤ s then "#ff9800" else "#f44336"

/-- Helper automatically comparing optional composites: `none` (absent)
is below everything, two present scores compare numerically. -/
def scoreLE : Option ℤ → Option ℤ → Prop
  | none, _ => True
  | some _, none => False
  | some a, some b => a ≤ b

/-- Replaces the raw score of one category of a breakdown, keeping the
rest of the entry; used to state monotonicity in a single raw score. -/
def setScore (b : Breakdown) (f : Category) (s : Option ℚ) : Breakdown :=
  match f with
  | Category.production_and_brand =>
      { b with production_and_brand := some { getMetric b f with score := s } }
  | Category.circularity_and_end_of_life =>
      { b with circularity_and_end_of_life := some { getMetric b f with score := s } }
  | Category.material_composition =>
      { b with material_composition := some { getMetric b f with score := s } }

/-- Raw score of one category of a breakdown. -/
def scoresOf (b : Breakdown) (f : Category) : Option ℚ :=
  (getMetric b f).score

/-- Breakdown with a single given raw score in every category and no labels. -/
def uniformBreakdown (s : Option ℚ) : Breakdown :=
  { production_and_brand := some { value := none, score := s }
    circularity_and_end_of_life := some { value := none, score := s }
    material_composition := some { value := none, score := s } }

/-- The breakdown `{production_and_brand: 7, circularity_and_end_of_life: 6,
material_composition: 8}` from the end-to-end example. -/
def exampleBreakdown : Breakdown :=
  { production_and_brand := some { value := none, score := some 7 }
    circularity_and_end_of_life := some { value := none, score := some 6 }
    material_composition := some { value := none, score := some 8 } }

/-- The default weights triple (5,5,5), stored explicitly. -/
def defaultWeights : SettingsWeights :=
  { production_and_brand := some 5
    circularity_and_end_of_life := some 5
    material_composition := some 5 }

/-- Weights triple (3,3,3), an arbitrary equal triple inside [1,5]. -/
def equalWeights3 : SettingsWeights :=
  { production_and_brand := some 3
    circularity_and_end_of_life := some 3
    material_composition := some 3 }

lemma totalWeight_eq (w : SettingsWeights) :
    totalWeight w =
      fieldWeightMap w Category.production_and_brand +
      fieldWeightMap w Category.circularity_and_end_of_life +
      fieldWeightMap w Category.material_composition := by
  simp [totalWeight, fieldOrder]

lemma weightedSum_eq (b : Breakdown) (w : SettingsWeights) :
    weightedSum b w =
      (calculationScore (getMetric b Category.production_and_brand) *
          fieldWeightMap w Category.production_and_brand +
        calculationScore (getMetric b Category.circularity_and_end_of_life) *
          fieldWeightMap w Category.circularity_and_end_of_life +
        calculationScore (getMetric b Category.material_composition) *
          fieldWeightMap w Category.material_composition) / totalWeight w := by
  simp only [weightedSum, fieldOrder, List.foldl_cons, List.foldl_nil, zero_add]
  rw [div_add_div_same, div_add_div_same]

lemma calculationScore_of_present {m : MetricData} {s : ℚ}
    (h : m.score = some s) (hs : 0 ≤ s) : calculationScore m = s := by
  simp [calculationScore, h, hs]

lemma jsWeightOrDefault_of_ne {v : ℚ} (h : v ≠ 0) :
    jsWeightOrDefault (some v) = v := by
  simp [jsWeightOrDefault, h]

lemma getMetric_setScore_self (b : Breakdown) (f : Category) (s : Option ℚ) :
    getMetric (setScore b f s) f = { getMetric b f with score := s } := by
  cases f <;> rfl

lemma getMetric_setScore_of_ne (b : Breakdown) {f g : Category} (s : Option ℚ)
    (h : g ≠ f) : getMetric (setScore b f s) g = getMetric b g := by
  cases f <;> cases g <;> simp_all [setScore, getMetric]

/-- Closed form of the weighted sum when all scores are present,
nonnegative, and all weights are present and nonzero. -/
lemma weightedSum_formula {b : Breakdown} {w : SettingsWeights}
    {s1 s2 s3 w1 w2 w3 : ℚ}
    (hb1 : scoresOf b Category.production_and_brand = some s1)
    (hb2 : scoresOf b Category.circularity_and_end_of_life = some s2)
    (hb3 : scoresOf b Category.material_composition = some s3)
    (hw1 : w.production_and_brand = some w1)
    (hw2 : w.circularity_and_end_of_life = some w2)
    (hw3 : w.material_composition = some w3)
    (hs1 : 0 ≤ s1) (hs2 : 0 ≤ s2) (hs3 : 0 ≤ s3)
    (h1 : w1 ≠ 0) (h2 : w2 ≠ 0) (h3 : w3 ≠ 0) :
    weightedSum b w = (s1 * w1 + s2 * w2 + s3 * w3) / (w1 + w2 + w3) := by
  have e1 : fieldWeightMap w Category.production_and_brand = w1 := by
    simp [fieldWeightMap, hw1, jsWeightOrDefault_of_ne h1]
  have e2 : fieldWeightMap w Category.circularity_and_end_of_life = w2 := by
    simp [fieldWeightMap, hw2, jsWeightOrDefault_of_ne h2]
  have e3 : fieldWeightMap w Category.material_composition = w3 := by
    simp [fieldWeightMap, hw3, jsWeightOrDefault_of_ne h3]
  rw [weightedSum_eq, totalWeight_eq, e1, e2, e3,
    calculationScore_of_present hb1 hs1, calculationScore_of_present hb2 hs2,
    calculationScore_of_present hb3 hs3]

/-- The weighted sum of the example breakdown at the default weights is 7. -/
lemma weightedSum_example : weightedSum exampleBreakdown defaultWeights = 7 := by
  have h := @weightedSum_formula exampleBreakdown defaultWeights 7 6 8 5 5 5
    rfl rfl rfl rfl rfl rfl (by norm_num) (by norm_num) (by norm_num)
    (by norm_num) (by norm_num) (by norm_num)
  rw [h]
  norm_num

/-- The weighted sum of the uniform 7.01 breakdown at the default weights. -/
lemma weightedSum_example701 :
    weightedSum (uniformBreakdown (some (701 / 100))) defaultWeights = 701 / 100 := by
  have h := @weightedSum_formula (uniformBreakdown (some (701 / 100))) defaultWeights
    (701 / 100) (701 / 100) (701 / 100) 5 5 5
    rfl rfl rfl rfl rfl rfl (by norm_num) (by norm_num) (by norm_num)
    (by norm_num) (by norm_num) (by norm_num)
  rw [h]
  norm_num

lemma weightedSum_zero_of_all_zero (b : Breakdown) (w : SettingsWeights)
    (h1 : calculationScore (getMetric b Category.production_and_brand) = 0)
    (h2 : calculationScore (getMetric b Category.circularity_and_end_of_life) = 0)
    (h3 : calculationScore (getMetric b Category.material_composition) = 0) :
    weightedSum b w = 0 := by
  rw [weightedSum_eq, h1, h2, h3]
  ring

lemma calculationScore_of_absent {m : MetricData} (h : m.score = none) :
    calculationScore m = 0 := by
  simp [calculationScore, h]

/-- A smaller weighted sum gives a composite no larger, in the order where
an absent composite is below every present one. -/
lemma mainScore_mono_of_ws_le {b1 b2 : Breakdown} {w : SettingsWeights}
    (h : weightedSum b1 w ≤ weightedSum b2 w) :
    scoreLE (mainScore b1 w) (mainScore b2 w) := by
  rw [mainScore, mainScore]
  by_cases h1 : 0 < weightedSum b1 w
  · rw [if_pos h1, if_pos (lt_of_lt_of_le h1 h)]
    exact Int.ceil_le_ceil (mul_le_mul_of_nonneg_right h (by norm_num))
  · rw [if_neg h1]
    trivial

lemma fieldWeightMap_pos {w : SettingsWeights} {w1 w2 w3 : ℚ}
    (hw1 : w.production_and_brand = some w1)
    (hw2 : w.circularity_and_end_of_life = some w2)
    (hw3 : w.material_composition = some w3)
    (h1 : 1 ≤ w1) (h2 : 1 ≤ w2) (h3 : 1 ≤ w3) :
    ∀ g : Category, 0 < fieldWeightMap w g := by
  intro g
  cases g <;>
    simp [fieldWeightMap, hw1, hw2, hw3,
      jsWeightOrDefault_of_ne (by linarith : w1 ≠ 0),
      jsWeightOrDefault_of_ne (by linarith : w2 ≠ 0),
      jsWeightOrDefault_of_ne (by linarith : w3 ≠ 0)] <;>
    linarith

/-- Raising the stored raw score of one category can only raise the
weighted sum, as long as every field weight is positive. -/
lemma weightedSum_setScore_le (b : Breakdown) (w : SettingsWeights)
    (f : Category) {t u : ℚ} (ht : 0 ≤ t) (htu : t ≤ u)
    (hW : ∀ g : Category, 0 < fieldWeightMap w g) :
    weightedSum (setScore b f (some t)) w ≤ weightedSum (setScore b f (some u)) w := by
  have hu : 0 ≤ u := le_trans ht htu
  have hT : 0 < totalWeight w := by
    rw [totalWeight_eq]
    have := hW Category.production_and_brand
    have := hW Category.circularity_and_end_of_life
    have := hW Category.material_composition
    linarith
  have hct : calculationScore { getMetric b f with score := some t } = t :=
    calculationScore_of_present rfl ht
  have hcu : calculationScore { getMetric b f with score := some u } = u :=
    calculationScore_of_present rfl hu
  rw [weightedSum_eq, weightedSum_eq]
  rw [div_le_div_iff_of_pos_right hT]
  cases f <;>
    [(rw [getMetric_setScore_self, getMetric_setScore_self,
        getMetric_setScore_of_ne b _ (by simp), getMetric_setScore_of_ne b _ (by simp),
        getMetric_setScore_of_ne b _ (by simp), getMetric_setScore_of_ne b _ (by simp),
        hct, hcu]);
     (rw [getMetric_setScore_self, getMetric_setScore_self,
        getMetric_setScore_of_ne b _ (by simp), getMetric_setScore_of_ne b _ (by simp),
        getMetric_setScore_of_ne b _ (by simp), getMetric_setScore_of_ne b _ (by simp),
        hct, hcu]);
     (rw [getMetric_setScore_self, getMetric_setScore_self,
        getMetric_setScore_of_ne b _ (by simp), getMetric_setScore_of_ne b _ (by simp),
        getMetric_setScore_of_ne b _ (by simp), getMetric_setScore_of_ne b _ (by simp),
        hct, hcu])] <;>
    nlinarith [hW Category.production_and_brand,
      hW Category.circularity_and_end_of_life, hW Category.material_composition]

/-- C1 (corrected). For a breakdown with all three raw scores present in
[0,10], weights present in [1,5], and at least one positive raw score,
the composite of the popup equals `ceil(weightedSum * 10)` and already
lies in [1,100], so the clamp the claim mentions is vacuous; the
end-to-end example (7,6,8) with default weights (5,5,5) gives 70 with the
"good" message, and the uniform 7.01 breakdown gives 71. The unamended
claim fails only on the all-zero breakdown, where the popup shows an
absent composite instead of the clamped formula value 0 (see the
counterexample theorem). -/
theorem composite_formula_c1
    (b : Breakdown) (w : SettingsWeights) (s1 s2 s3 w1 w2 w3 : ℚ)
    (hb1 : scoresOf b Category.production_and_brand = some s1)
    (hb2 : scoresOf b Category.circularity_and_end_of_life = some s2)
    (hb3 : scoresOf b Category.material_composition = some s3)
    (hw1 : w.production_and_brand = some w1)
    (hw2 : w.circularity_and_end_of_life = some w2)
    (hw3 : w.material_composition = some w3)
    (hs1l : 0 ≤ s1) (hs1u : s1 ≤ 10) (hs2l : 0 ≤ s2) (hs2u : s2 ≤ 10)
    (hs3l : 0 ≤ s3) (hs3u : s3 ≤ 10)
    (hw1l : 1 ≤ w1) (hw1u : w1 ≤ 5) (hw2l : 1 ≤ w2) (hw2u : w2 ≤ 5)
    (hw3l : 1 ≤ w3) (hw3u : w3 ≤ 5)
    (hpos : 0 < s1 ∨ 0 < s2 ∨ 0 < s3) :
    mainScore b w = some ⌈weightedSum b w * 10⌉ ∧
    mainScore b w = some (specComposite b w) ∧
    weightedSum b w = (s1 * w1 + s2 * w2 + s3 * w3) / (w1 + w2 + w3) ∧
    (∀ v : ℤ, mainScore b w = some v → 1 ≤ v ∧ v ≤ 100) ∧
    mainScore exampleBreakdown defaultWeights = some 70 ∧
    getDefaultMessage (mainScore exampleBreakdown defaultWeights) =
      "This product has good sustainability practices." ∧
    mainScore (uniformBreakdown (some (701 / 100))) defaultWeights = some 71 := by
  have hws : weightedSum b w = (s1 * w1 + s2 * w2 + s3 * w3) / (w1 + w2 + w3) :=
    weightedSum_formula hb1 hb2 hb3 hw1 hw2 hw3 hs1l hs2l hs3l
      (by linarith) (by linarith) (by linarith)
  have hT : (0 : ℚ) < w1 + w2 + w3 := by linarith
  have hnum : 0 < s1 * w1 + s2 * w2 + s3 * w3 := by
    rcases hpos with h | h | h <;> nlinarith
  have hws_pos : 0 < weightedSum b w := by
    rw [hws]
    exact div_pos hnum hT
  have hws_le : weightedSum b w ≤ 10 := by
    rw [hws, div_le_iff₀ hT]
    nlinarith
  have hmain : mainScore b w = some ⌈weightedSum b w * 10⌉ := by
    rw [mainScore, if_pos hws_pos]
  have hceil_le : ⌈weightedSum b w * 10⌉ ≤ 100 := by
    rw [Int.ceil_le]
    push_cast
    nlinarith
  have hceil_pos : 1 ≤ ⌈weightedSum b w * 10⌉ := by
    have h0 : (0 : ℤ) < ⌈weightedSum b w * 10⌉ := Int.ceil_pos.mpr (by nlinarith)
    omega
  have hex : mainScore exampleBreakdown defaultWeights = some 70 := by
    rw [mainScore, weightedSum_example]
    norm_num
  refine ⟨hmain, ?_, hws, ?_, hex, ?_, ?_⟩
  · rw [hmain, specComposite]
    congr 1
    omega
  · intro v hv
    rw [hmain] at hv
    have hv2 := Option.some.inj hv
    omega
  · rw [hex]
    norm_num [getDefaultMessage]
  · rw [mainScore, weightedSum_example701]
    norm_num
    rw [Int.ceil_eq_iff]
    norm_num

/-- Witness for C1: a concrete application of the theorem at the uniform
breakdown with raw score 4 and weights (3,3,3). -/
theorem composite_formula_c1_witness :
    mainScore (uniformBreakdown (some 4)) equalWeights3 =
      some ⌈weightedSum (uniformBreakdown (some 4)) equalWeights3 * 10⌉ ∧
    mainScore exampleBreakdown defaultWeights = some 70 := by
  have h := composite_formula_c1 (uniformBreakdown (some 4)) equalWeights3
    4 4 4 3 3 3 rfl rfl rfl rfl rfl rfl
    (by norm_num) (by norm_num) (by norm_num) (by norm_num) (by norm_num)
    (by norm_num) (by norm_num) (by norm_num) (by norm_num) (by norm_num)
    (by norm_num) (by norm_num) (Or.inl (by norm_num))
  exact ⟨h.1, h.2.2.2.2.1⟩

/-- Counterexample to C1 as stated: on the breakdown whose three raw
scores are all present and equal to 0 with the default weights, the
popup composite is absent, while the claimed clamped ceiling formula
gives the value 0. -/
theorem composite_formula_c1_cex :
    mainScore (uniformBreakdown (some 0)) defaultWeights ≠
      some (specComposite (uniformBreakdown (some 0)) defaultWeights) := by
  have hz : weightedSum (uniformBreakdown (some 0)) defaultWeights = 0 := by
    apply weightedSum_zero_of_all_zero <;>
      norm_num [calculationScore, getMetric, uniformBreakdown]
  rw [mainScore, hz]
  simp

/-- C2 (corrected). For raw scores present in [0,10] and weights present
in [1,5]: the composite is absent exactly when all three raw scores are
0; whenever it is present it lies in [0,100] (indeed in [1,100]); and it
is monotonically non-decreasing in each raw score, in the order where an
absent composite is below every present one. The unamended claim fails
because the all-zero breakdown returns no value at all. -/
theorem composite_range_mono_c2
    (b : Breakdown) (w : SettingsWeights) (s1 s2 s3 w1 w2 w3 : ℚ)
    (hb1 : scoresOf b Category.production_and_brand = some s1)
    (hb2 : scoresOf b Category.circularity_and_end_of_life = some s2)
    (hb3 : scoresOf b Category.material_composition = some s3)
    (hw1 : w.production_and_brand = some w1)
    (hw2 : w.circularity_and_end_of_life = some w2)
    (hw3 : w.material_composition = some w3)
    (hs1l : 0 ≤ s1) (hs1u : s1 ≤ 10) (hs2l : 0 ≤ s2) (hs2u : s2 ≤ 10)
    (hs3l : 0 ≤ s3) (hs3u : s3 ≤ 10)
    (hw1l : 1 ≤ w1) (hw1u : w1 ≤ 5) (hw2l : 1 ≤ w2) (hw2u : w2 ≤ 5)
    (hw3l : 1 ≤ w3) (hw3u : w3 ≤ 5) :
    (mainScore b w = none ↔ s1 = 0 ∧ s2 = 0 ∧ s3 = 0) ∧
    (∀ v : ℤ, mainScore b w = some v → 0 ≤ v ∧ v ≤ 100) ∧
    (∀ (f : Category) (t u : ℚ), 0 ≤ t → t ≤ u →
      scoreLE (mainScore (setScore b f (some t)) w)
        (mainScore (setScore b f (some u)) w)) := by
  have hws : weightedSum b w = (s1 * w1 + s2 * w2 + s3 * w3) / (w1 + w2 + w3) :=
    weightedSum_formula hb1 hb2 hb3 hw1 hw2 hw3 hs1l hs2l hs3l
      (by linarith) (by linarith) (by linarith)
  have hT : (0 : ℚ) < w1 + w2 + w3 := by linarith
  have hnum_nonneg : 0 ≤ s1 * w1 + s2 * w2 + s3 * w3 := by nlinarith
  have hws_nonneg : 0 ≤ weightedSum b w := by
    rw [hws]
    positivity
  refine ⟨?_, ?_, ?_⟩
  · constructor
    · intro hnone
      have hle : ¬ 0 < weightedSum b w := by
        intro hlt
        rw [mainScore, if_pos hlt] at hnone
        exact Option.noConfusion hnone
      have hz : weightedSum b w = 0 := le_antisymm (not_lt.mp hle) hws_nonneg
      rw [hws, div_eq_zero_iff] at hz
      have hzn : s1 * w1 + s2 * w2 + s3 * w3 = 0 := by
        rcases hz with h | h
        · exact h
        · exact absurd h (by linarith)
      refine ⟨?_, ?_, ?_⟩ <;> nlinarith
    · rintro ⟨rfl, rfl, rfl⟩
      have hz : weightedSum b w = 0 := by
        rw [hws]
        ring
      rw [mainScore, hz]
      norm_num
  · intro v hv
    have hpos : 0 < weightedSum b w := by
      by_contra hle
      rw [mainScore, if_neg hle] at hv
      exact Option.noConfusion hv
    rw [mainScore, if_pos hpos] at hv
    have hv2 := Option.some.inj hv
    have hws_le : weightedSum b w ≤ 10 := by
      rw [hws, div_le_iff₀ hT]
      nlinarith
    have hceil_le : ⌈weightedSum b w * 10⌉ ≤ 100 := by
      rw [Int.ceil_le]
      push_cast
      nlinarith
    have hceil_pos : (0 : ℤ) < ⌈weightedSum b w * 10⌉ :=
      Int.ceil_pos.mpr (by nlinarith)
    omega
  · intro f t u ht htu
    exact mainScore_mono_of_ws_le
      (weightedSum_setScore_le b w f ht htu
        (fieldWeightMap_pos hw1 hw2 hw3 hw1l hw2l hw3l))

/-- Witness for C2 at a concrete breakdown and weights. -/
theorem composite_range_mono_c2_witness :
    (mainScore exampleBreakdown defaultWeights = none ↔
      (7 : ℚ) = 0 ∧ (6 : ℚ) = 0 ∧ (8 : ℚ) = 0) ∧
    scoreLE
      (mainScore (setScore exampleBreakdown Category.production_and_brand (some 2))
        defaultWeights)
      (mainScore (setScore exampleBreakdown Category.production_and_brand (some 3))
        defaultWeights) := by
  have h := composite_range_mono_c2 exampleBreakdown defaultWeights
    7 6 8 5 5 5 rfl rfl rfl rfl rfl rfl
    (by norm_num) (by norm_num) (by norm_num) (by norm_num) (by norm_num)
    (by norm_num) (by norm_num) (by norm_num) (by norm_num) (by norm_num)
    (by norm_num) (by norm_num)
  exact ⟨h.1, h.2.2 Category.production_and_brand 2 3 (by norm_num) (by norm_num)⟩

/-- Counterexample to C2 as stated: on the all-zero present breakdown the
popup composite computation returns no value at all, so it does not
return a value in [0,100]. -/
theorem composite_range_mono_c2_cex :
    mainScore (uniformBreakdown (some 0)) defaultWeights = none := by
  have hz : weightedSum (uniformBreakdown (some 0)) defaultWeights = 0 := by
    apply weightedSum_zero_of_all_zero <;>
      norm_num [calculationScore, getMetric, uniformBreakdown]
  rw [mainScore, hz]
  norm_num

/-- C3 (corrected). If all three raw scores are absent the composite is
absent, not 0, and absent raw scores enter the weighted sum as 0; but a
breakdown whose raw scores are all present and equal to 0 also yields
an absent composite, because the popup only tests whether the weighted
sum is positive and cannot tell an all-zero breakdown from missing data. -/
theorem composite_absent_c3 :
    (∀ (b : Breakdown) (w : SettingsWeights),
      scoresOf b Category.production_and_brand = none →
      scoresOf b Category.circularity_and_end_of_life = none →
      scoresOf b Category.material_composition = none →
      mainScore b w = none) ∧
    (∀ (b : Breakdown) (w : SettingsWeights),
      scoresOf b Category.production_and_brand = some 0 →
      scoresOf b Category.circularity_and_end_of_life = some 0 →
      scoresOf b Category.material_composition = some 0 →
      mainScore b w = none) ∧
    (∀ (b : Breakdown) (w : SettingsWeights) (f : Category),
      scoresOf b f = none →
      weightedSum b w = weightedSum (setScore b f (some 0)) w) := by
  refine ⟨?_, ?_, ?_⟩
  · intro b w h1 h2 h3
    have hz : weightedSum b w = 0 :=
      weightedSum_zero_of_all_zero b w (calculationScore_of_absent h1)
        (calculationScore_of_absent h2) (calculationScore_of_absent h3)
    rw [mainScore, hz]
    norm_num
  · intro b w h1 h2 h3
    have hz : weightedSum b w = 0 :=
      weightedSum_zero_of_all_zero b w
        (by rw [calculationScore_of_present h1 le_rfl])
        (by rw [calculationScore_of_present h2 le_rfl])
        (by rw [calculationScore_of_present h3 le_rfl])
    rw [mainScore, hz]
    norm_num
  · intro b w f h
    have hc1 : calculationScore (getMetric b f) = 0 := calculationScore_of_absent h
    have hc2 : calculationScore { getMetric b f with score := some 0 } = 0 :=
      calculationScore_of_present rfl le_rfl
    rw [weightedSum_eq, weightedSum_eq]
    cases f <;>
      rw [getMetric_setScore_self,
        getMetric_setScore_of_ne b _ (by simp), getMetric_setScore_of_ne b _ (by simp),
        hc2, hc1]

/-- Witness for C3: the all-absent and the all-zero breakdowns both give
an absent composite at the default weights. -/
theorem composite_absent_c3_witness :
    mainScore (uniformBreakdown none) defaultWeights = none ∧
    mainScore (uniformBreakdown (some 0)) equalWeights3 = none := by
  exact ⟨composite_absent_c3.1 (uniformBreakdown none) defaultWeights rfl rfl rfl,
    composite_absent_c3.2.1 (uniformBreakdown (some 0)) equalWeights3 rfl rfl rfl⟩

/-- Counterexample to C3 as stated: the all-zero present breakdown does
not produce the composite 0 the claim requires; the popup leaves the
composite absent. -/
theorem composite_absent_c3_cex :
    mainScore (uniformBreakdown (some 0)) equalWeights3 ≠ some 0 := by
  have hz : weightedSum (uniformBreakdown (some 0)) equalWeights3 = 0 := by
    apply weightedSum_zero_of_all_zero <;>
      norm_num [calculationScore, getMetric, uniformBreakdown]
  rw [mainScore, hz]
  simp

/-- C8 (corrected). The per-category rating display never depends on the
weights; a present raw score that is nonnegative is displayed clamped to
[0,10]; an absent raw score renders as the no-data marker, which differs
from the marker of a present zero score. The unamended claim fails on a
present negative raw score, which the popup renders as no data instead
of clamping it to 0 (see the counterexample theorem). -/
theorem category_display_c8 :
    (∀ (b : Breakdown) (w w2 : SettingsWeights),
      (popupRender b w).1 = (popupRender b w2).1) ∧
    (∀ (m : MetricData) (s : ℚ), m.score = some s → 0 ≤ s →
      displayFieldScore m = some (max 0 (min 10 s)) ∧
      0 ≤ max 0 (min 10 s) ∧ max 0 (min 10 s) ≤ 10) ∧
    (∀ m : MetricData, m.score = none → ratingOf m = Rating.noData) ∧
    (∀ m : MetricData, m.score = some 0 → ratingOf m = Rating.score 0) ∧
    Rating.noData ≠ Rating.score 0 := by
  refine ⟨fun b w w2 => rfl, ?_, ?_, ?_, by simp⟩
  · intro m s h hs
    refine ⟨by simp [displayFieldScore, h, hs], le_max_left 0 _, ?_⟩
    exact max_le (by norm_num) (min_le_left _ _)
  · intro m h
    simp [ratingOf, displayFieldScore, h]
  · intro m h
    norm_num [ratingOf, displayFieldScore, h]

/-- Witness for C8 at concrete metric entries. -/
theorem category_display_c8_witness :
    displayFieldScore { value := none, score := some 7 } = some 7 ∧
    ratingOf { value := none, score := none } = Rating.noData := by
  have h := category_display_c8
  refine ⟨?_, h.2.2.1 { value := none, score := none } rfl⟩
  have h2 := (h.2.1 { value := none, score := some 7 } 7 rfl (by norm_num)).1
  rw [h2]
  norm_num

/-- Counterexample to C8 as stated: a present raw score of -1 is not
displayed as its clamp to [0,10] (which would be 0); the popup displays
no data for it. -/
theorem category_display_c8_cex :
    displayFieldScore { value := none, score := some (-1) } ≠
      some (max 0 (min 10 (-1 : ℚ))) := by
  norm_num [displayFieldScore]
  simp

/-! ## Content script (extension/content.js) -/

/-- JS truthiness of an optional string: `null`, `undefined` and the
empty string are falsy. -/
def jsTruthy : Option String → Bool
  | some s => s != ""
  | none => false

/-- The JS `||` on optional strings. -/
def jsOr (a b : Option String) : Option String :=
  if jsTruthy a then a else b

/-- JS `s.toLowerCase()`, modelled as character-wise lower-casing. -/
def jsToLower (s : String) : String :=
  String.mk (s.data.map Char.toLower)

/-- JS `s.includes(pat)` for a non-empty pattern, through `splitOn`:
the pattern occurs exactly when splitting produces at least two parts. -/
def jsIncludes (s pat : String) : Bool :=
  decide (1 < (s.splitOn pat).length)

/-- State of the content script module (content.js lines 3-17): the
per-page dispatch gate `hasRequestedData`, the error-toast gate and the
URL snapshot kept by the URL poll. -/
structure ContentState where
  hasRequestedData : Bool
  hasShownErrorToast : Bool
  currentUrl : String
  deriving DecidableEq, Repr

/-- Interval of the URL-change poll in milliseconds
(`setInterval(..., 1000)`, content.js lines 10-17). -/
def urlPollIntervalMs : ℕ := 1000

/-- An event relevant to the dispatch gate: a successful extraction that
invokes `sendToServiceWorker` (content.js lines 473-502), or one tick of
the URL poll reading the current `location.href` (lines 10-17). -/
inductive ContentEvent where
  | extractionSuccess
  | urlPoll (href : String)
  deriving DecidableEq, Repr

/-- One step of the content script. `sendToServiceWorker` returns without
dispatching when `hasRequestedData` is set, otherwise sets the gate and
dispatches (lines 257-264); a poll tick whose `location.href` differs
from the snapshot updates the snapshot and clears both gates (lines
10-17). The boolean records whether a message was dispatched. -/
def contentStep (st : ContentState) : ContentEvent → ContentState × Bool
  | ContentEvent.extractionSuccess =>
      if st.hasRequestedData then (st, false)
      else ({ st with hasRequestedData := true }, true)
  | ContentEvent.urlPoll href =>
      if href ≠ st.currentUrl then
        ({ currentUrl := href, hasRequestedData := false,
           hasShownErrorToast := false }, false)
      else (st, false)

/-- Runs a list of events, counting the dispatches to the service worker. -/
def contentRun (st : ContentState) : List ContentEvent → ContentState × ℕ
  | [] => (st, 0)
  | e :: rest =>
      let step := contentStep st e
      let restRun := contentRun step.1 rest
      (restRun.1, (if step.2 then 1 else 0) + restRun.2)

/-- An event that stays inside the gated window of a page whose URL is
`u`: an extraction success, or a poll tick that still reads `u`. -/
def sameUrlEvent (u : String) : ContentEvent → Prop
  | ContentEvent.extractionSuccess => True
  | ContentEvent.urlPoll href => href = u

/-- Number of extraction successes in a list of events. -/
def countExtractions : List ContentEvent → ℕ
  | [] => 0
  | ContentEvent.extractionSuccess :: rest => 1 + countExtractions rest
  | ContentEvent.urlPoll _ :: rest => countExtractions rest

lemma contentRun_gated (st : ContentState) (evs : List ContentEvent)
    (h : st.hasRequestedData = true)
    (hsame : ∀ e ∈ evs, sameUrlEvent st.currentUrl e) :
    contentRun st evs = (st, 0) := by
  induction evs with
  | nil => rfl
  | cons e rest ih =>
      have hstep : contentStep st e = (st, false) := by
        cases e with
        | extractionSuccess => simp [contentStep, h]
        | urlPoll href =>
            have := hsame (ContentEvent.urlPoll href) (by simp)
            simp [sameUrlEvent] at this
            simp [contentStep, this]
      simp [contentRun, hstep]
      exact ih fun e he => hsame e (by simp [he])

/-- C5 (confirmed). The dispatch gate of the content script: the first
extraction success dispatches and sets the gate, later successes in the
same gated window are dropped, so any run of same-URL events out of a
fresh window dispatches exactly `min 1 (number of extraction successes)`
messages; the gate is cleared only by a poll tick observing a changed
URL; the poll runs once a second. -/
theorem dispatch_gate_c5 :
    (∀ st : ContentState, st.hasRequestedData = false →
      contentStep st ContentEvent.extractionSuccess =
        ({ st with hasRequestedData := true }, true)) ∧
    (∀ st : ContentState, st.hasRequestedData = true →
      contentStep st ContentEvent.extractionSuccess = (st, false)) ∧
    (∀ (st : ContentState) (evs : List ContentEvent),
      st.hasRequestedData = false →
      (∀ e ∈ evs, sameUrlEvent st.currentUrl e) →
      (contentRun st evs).2 = min 1 (countExtractions evs)) ∧
    (∀ (st : ContentState) (e : ContentEvent),
      (contentStep st e).1.hasRequestedData = false →
      st.hasRequestedData = false ∨
        ∃ href, e = ContentEvent.urlPoll href ∧ href ≠ st.currentUrl) ∧
    urlPollIntervalMs = 1000 := by
  refine ⟨?_, ?_, ?_, ?_, rfl⟩
  · intro st h
    simp [contentStep, h]
  · intro st h
    simp [contentStep, h]
  · intro st evs
    induction evs generalizing st with
    | nil => intro _ _; rfl
    | cons e rest ih =>
        intro h hsame
        cases e with
        | extractionSuccess =>
            have hstep : contentStep st ContentEvent.extractionSuccess =
                ({ st with hasRequestedData := true }, true) := by
              simp [contentStep, h]
            have hrest : contentRun { st with hasRequestedData := true } rest =
                ({ st with hasRequestedData := true }, 0) :=
              contentRun_gated _ _ rfl fun e he => hsame e (by simp [he])
            simp [contentRun, hstep, hrest, countExtractions]
        | urlPoll href =>
            have hurl := hsame (ContentEvent.urlPoll href) (by simp)
            simp [sameUrlEvent] at hurl
            have hstep : contentStep st (ContentEvent.urlPoll href) = (st, false) := by
              simp [contentStep, hurl]
            simp [contentRun, hstep, countExtractions]
            exact ih st h fun e he => hsame e (by simp [he])
  · intro st e h
    cases e with
    | extractionSuccess =>
        by_cases hg : st.hasRequestedData
        · simp [contentStep, hg] at h
        · exact Or.inl (by simpa using hg)
    | urlPoll href =>
        by_cases hu : href = st.currentUrl
        · simp [contentStep, hu] at h
          exact Or.inl h
        · exact Or.inr ⟨href, rfl, hu⟩

/-- Witness for C5: a fresh window with two extraction successes and a
same-URL poll tick produces exactly one dispatch. -/
theorem dispatch_gate_c5_witness :
    (contentRun
      { hasRequestedData := false, hasShownErrorToast := false,
        currentUrl := "https://shopee.sg/product/1" }
      [ContentEvent.extractionSuccess, ContentEvent.extractionSuccess,
       ContentEvent.urlPoll "https://shopee.sg/product/1"]).2 = 1 := by
  have h := dispatch_gate_c5.2.2.1
    { hasRequestedData := false, hasShownErrorToast := false,
      currentUrl := "https://shopee.sg/product/1" }
    [ContentEvent.extractionSuccess, ContentEvent.extractionSuccess,
     ContentEvent.urlPoll "https://shopee.sg/product/1"]
    rfl
    (by
      intro e he
      simp only [List.mem_cons, List.not_mem_nil, or_false] at he
      rcases he with rfl | rfl | rfl <;> simp [sameUrlEvent])
  rw [h]
  rfl

/-! ## Product extraction (extension/content.js, lines 20-256) -/

/-- The browser window as the content script sees it. A browser window
object exposes the page URL at `window.location.href`; the window object
itself has no own `href` property. -/
structure Window where
  location_href : String
  deriving DecidableEq, Repr

/-- The value of the JavaScript property read `window.href`
(content.js line 25). The window object has no `href` property, so the
read evaluates to `undefined`, modelled as `none`, for every window; the
page URL sits at `window.location.href`, which line 25 does not read
(the sibling content-script variant in src/unnamed/part_003 reads
`window.location.href` at the same place). -/
def windowHref (_ : Window) : Option String := none

/-- The live DOM as the extractor consumes it. `query sel` is the
trimmed text content of the first element matching CSS selector `sel`
(`none` when no element matches); the `meta*` fields are the contents of
the three metadata tags read by the fallback (lines 84-86); the
specification scan of `extractProductSpecifications` (lines 138-221),
whose DOM walking no claim depends on, is abstracted by the label-value
pairs it discovers and by the value of a brand/make labelled pair, if
one exists (lines 239-242). -/
structure Document where
  hostname : String
  query : String → Option String
  metaProductBrand : Option String
  metaOgBrand : Option String
  metaOgTitle : Option String
  specPairs : List (String × String)
  specBrand : Option String

/-- The extracted product record (content.js lines 22-27). -/
structure ProductInfo where
  brand : Option String
  name : Option String
  url : Option String
  specifications : List (String × String)
  deriving DecidableEq, Repr

/-- The ordered brand selector candidates (content.js lines 35-44). -/
def brandSelectors : List String :=
  [".qPNIqx", "[data-testid=\"shopBrandName\"]", ".shop-name", ".seller-name",
   ".brand-name", ".qPNIqx span", ".item-brand", ".product-brand"]

/-- The ordered name selector candidates (content.js lines 47-55). -/
def nameSelectors : List String :=
  [".YPqix5", ".product-name", ".product-title", ".item-name",
   ".product-detail__name", "h1", "[data-testid=\"productTitle\"]"]

/-- The known-brand lookup list (content.js line 99). -/
def knownBrands : List String :=
  ["Bose", "Sony", "Apple", "Samsung", "Nike", "Adidas", "Xiaomi", "Huawei",
   "Dell", "HP", "Asus", "Acer"]

/-- The generic bracket tokens rejected as brand names (content.js
line 115). -/
def genericStopwords : List String :=
  ["New", "new", "NEW", "Hot", "Sale", "Latest"]

/-- First selector whose element has truthy trimmed text content
(content.js lines 58-75). -/
def firstSelectorHit (d : Document) (selectors : List String) : Option String :=
  selectors.findSome? fun sel =>
    match d.query sel with
    | some t => if t ≠ "" then some t else none
    | none => none

/-- Simple assoc-list lookup used to model JS object maps. -/
def assocFind {α : Type} (k : String) : List (String × α) → Option α
  | [] => none
  | (k2, v) :: rest => if k2 = k then some v else assocFind k rest

/-- The lazy bracket match of content.js line 111: the raw text between
the first opening bracket and the first closing bracket after it, when
both exist. -/
def bracketToken (name : String) : Option String :=
  match name.splitOn "[" with
  | _ :: rest0 :: rest =>
      match (String.intercalate "[" (rest0 :: rest)).splitOn "]" with
      | inner :: _ :: _ => some inner
      | _ => none
  | _ => none

/-- The first-word fallback of content.js lines 123-129: the first word
of the name, when it is non-empty, starts with a character equal to its
own upper-casing and is longer than 2. -/
def firstWordBrand (name : String) : Option String :=
  match name.splitOn " " with
  | w0 :: _ =>
      if w0 ≠ "" ∧ w0.front.toUpper = w0.front ∧ 2 < w0.length then some w0
      else none
  | [] => none

/-- Brand, name and specification extraction of `extractProductInfo`
(content.js lines 20-135) except the `url` field, which the record
initialiser sets once at line 25 and which no later statement touches.
Follows the source order: Shopee selector cascade with specification
scan, then the meta-tag fallback, then the brand-inference cascade
(known brands, bracketed token, capitalised first word). -/
def extractIdentity (d : Document) :
    Option String × Option String × List (String × String) :=
  let isShopee := jsIncludes d.hostname "shopee.sg" || jsIncludes d.hostname "shopee.com"
  let brand0 := if isShopee then firstSelectorHit d brandSelectors else none
  let name0 := if isShopee then firstSelectorHit d nameSelectors else none
  let brand1 :=
    if isShopee ∧ ¬ jsTruthy brand0 then jsOr d.specBrand brand0 else brand0
  let specs1 := if isShopee then d.specPairs else []
  let specs2 :=
    if isShopee ∧ jsTruthy brand1 ∧ assocFind "brand" specs1 = none then
      specs1 ++ [("brand", brand1.getD "")]
    else specs1
  if ¬ jsTruthy brand1 ∨ ¬ jsTruthy name0 then
    let metaBrand := jsOr d.metaProductBrand d.metaOgBrand
    let brandA := if jsTruthy metaBrand then metaBrand else brand1
    let nameA := if jsTruthy d.metaOgTitle then d.metaOgTitle else name0
    if ¬ jsTruthy brandA ∧ jsTruthy nameA then
      let nm := nameA.getD ""
      let afterKnown :=
        match knownBrands.find? (fun kb => jsIncludes nm kb) with
        | some kb => some kb
        | none => brandA
      let afterBracket :=
        if ¬ jsTruthy afterKnown then
          match bracketToken nm with
          | some raw =>
              if raw ≠ "" ∧ raw.trim.length < 15 ∧ raw.trim ∉ genericStopwords then
                some raw.trim
              else afterKnown
          | none => afterKnown
        else afterKnown
      let afterWord :=
        if ¬ jsTruthy afterBracket then
          match firstWordBrand nm with
          | some w0 => some w0
          | none => afterBracket
        else afterBracket
      (afterWord, nameA, specs2)
    else (brandA, nameA, specs2)
  else (brand1, name0, specs2)

/-- The extractor contract of content.js lines 20-135: the record holds
the extracted brand, name and specifications and the value of the
`window.href` read at line 25 as its `url`. -/
def extractProductInfo (w : Window) (d : Document) : ProductInfo :=
  { brand := (extractIdentity d).1
    name := (extractIdentity d).2.1
    url := windowHref w
    specifications := (extractIdentity d).2.2 }

/-- The JSON body of the gateway submission
(`fetchFromApi`, src/unnamed/part_002 lines 298-303): the four fields of
the product record; a `none` field is absent from the serialised JSON,
since `JSON.stringify` omits properties whose value is `undefined`. -/
structure SubmitBody where
  brand : Option String
  name : Option String
  url : Option String
  specifications : List (String × String)
  deriving DecidableEq, Repr

/-- Builds the submission body from a product record. -/
def submissionBody (p : ProductInfo) : SubmitBody :=
  { brand := p.brand, name := p.name, url := p.url,
    specifications := p.specifications }

/-- C9 (code bug). For every window and document the extractor sets the
`url` field to the value of `window.href`, which is `undefined`: the
record never carries the page URL, and the serialised submission body
has no `url` member. The claim (and the specification) say `url` is a
string equal to the page URL; the code reads the wrong property
(`window.href` instead of `window.location.href`). -/
theorem product_url_c9 (w : Window) (d : Document) :
    (extractProductInfo w d).url = none ∧
    (submissionBody (extractProductInfo w d)).url = none ∧
    (extractProductInfo w d).url ≠ some w.location_href := by
  refine ⟨rfl, rfl, ?_⟩
  intro h
  exact Option.noConfusion h

/-! ## Service worker (src/unnamed/part_002, production version, lines 1-384) -/

/-- The sustainability payload as the production service worker reads
it, restricted to the members it inspects or forwards; every member may
be absent in the underlying JSON. -/
structure ScoreResult where
  brand : Option String
  score : Option ℤ
  certainty : Option String
  product_id : Option String
  deriving DecidableEq, Repr

/-- The empty payload object, produced by spreading an undefined value. -/
def emptyScoreResult : ScoreResult :=
  { brand := none, score := none, certainty := none, product_id := none }

/-- A parsed JSON body of a gateway response, restricted to the members
the service worker reads. -/
structure ApiBody where
  success : Bool
  status : Option String
  data : Option ScoreResult
  product_id : Option String
  deriving DecidableEq, Repr

/-- What one `fetch` call can observe: a response with a parsed body, a
non-ok response with its HTTP status, a thrown transport error, or the
abort fired by the 8 s submission timeout. -/
inductive HttpResponse where
  | ok (body : ApiBody)
  | notOk (status : ℕ)
  | transportError (msg : String)
  | aborted
  deriving DecidableEq, Repr

/-- The remote gateway as an environment: the response of the primary
`POST /api/product`, the response of the fallback score lookup, and the
response of the k-th status poll. -/
structure GatewayEnv where
  productResponse : HttpResponse
  scoreResponse : HttpResponse
  statusResponses : ℕ → HttpResponse

/-- `fetchFromApi` of the production service worker (part_002 lines
255-362): the returned JS value (possibly `undefined`, hence the inner
`Option`) or the thrown error message, with the number of network
requests issued. A missing or empty brand throws "Missing brand name"
before any request (lines 257-260); a non-ok primary response triggers
the fallback lookup (lines 308-331); a response body is accepted when
it is successful with status "found", "processing" (spreading in the
`product_id`), or with truthy data (lines 337-350). For a non-ok
fallback the thrown message carries the primary status (the status text
of the template literal is not modelled). -/
def fetchFromApi (p : ProductInfo) (env : GatewayEnv) :
    Except String (Option ScoreResult) × ℕ :=
  if ¬ jsTruthy p.brand then (Except.error "Missing brand name", 0)
  else
    match env.productResponse with
    | HttpResponse.aborted => (Except.error "API request timed out", 1)
    | HttpResponse.transportError msg => (Except.error msg, 1)
    | HttpResponse.notOk status =>
        match env.scoreResponse with
        | HttpResponse.ok fb =>
            if fb.success ∧ fb.data.isSome then (Except.ok fb.data, 2)
            else (Except.error "No data available for this brand", 2)
        | HttpResponse.notOk _ =>
            (Except.error ("API returned " ++ toString status), 2)
        | HttpResponse.transportError msg => (Except.error msg, 2)
        | HttpResponse.aborted => (Except.error "API request timed out", 2)
    | HttpResponse.ok body =>
        if body.success then
          if body.status = some "found" then (Except.ok body.data, 1)
          else if body.status = some "processing" then
            (Except.ok (some { body.data.getD emptyScoreResult with
              product_id := body.product_id }), 1)
          else
            match body.data with
            | some d => (Except.ok (some d), 1)
            | none => (Except.error "Invalid response format from API", 1)
        else (Except.error "Invalid response format from API", 1)

/-- The completion test of `pollForUpdates` (lines 129-136): the response
is ok, its body is successful and its status is "completed"; the
returned payload is `data.data`, which may itself be absent. -/
def pollCompleted : HttpResponse → Option (Option ScoreResult)
  | HttpResponse.ok body =>
      if body.success ∧ body.status = some "completed" then some body.data
      else none
  | _ => none

/-- The error thrown when the attempt budget is exhausted (line 151). -/
def pollTimeoutMsg : String :=
  "Analysis timed out - database connection may be unavailable"

/-- The attempt budget of the polling loop (`maxAttempts = 30`, line 100). -/
def maxPollAttempts : ℕ := 30

/-- The inter-attempt wait of the polling loop in milliseconds (line 139). -/
def pollIntervalMs : ℕ := 2000

/-- Observable outcome of the polling loop: the returned payload or the
thrown error, the number of status requests made, and the list of
inter-attempt waits performed (in milliseconds). An attempt that throws
a transport error performs no wait, because the exception jumps to the
catch block before the sleep at line 139. -/
structure PollOutcome where
  result : Except String (Option ScoreResult)
  attempts : ℕ
  waits : List ℕ
  deriving Repr

/-- The loop of `pollForUpdates` (lines 101-144), indexed by the current
attempt number and the remaining attempts. -/
def pollLoop (env : ℕ → HttpResponse) (attempt : ℕ) : ℕ → PollOutcome
  | 0 => { result := Except.error pollTimeoutMsg, attempts := 0, waits := [] }
  | remaining + 1 =>
      match pollCompleted (env attempt) with
      | some d => { result := Except.ok d, attempts := 1, waits := [] }
      | none =>
          let rest := pollLoop env (attempt + 1) remaining
          { result := rest.result, attempts := rest.attempts + 1,
            waits :=
              match env attempt with
              | HttpResponse.transportError _ => rest.waits
              | HttpResponse.aborted => rest.waits
              | _ => pollIntervalMs :: rest.waits }

/-- `pollForUpdates(productId, sender)` at the default budget of 30. -/
def pollForUpdates (env : ℕ → HttpResponse) : PollOutcome :=
  pollLoop env 0 maxPollAttempts

lemma pollLoop_attempts_le (env : ℕ → HttpResponse) :
    ∀ (r a : ℕ), (pollLoop env a r).attempts ≤ r := by
  intro r
  induction r with
  | zero => intro a; simp [pollLoop]
  | succ n ih =>
      intro a
      rw [pollLoop]
      cases hc : pollCompleted (env a) with
      | some d => simp
      | none =>
          simp only []
          have := ih (a + 1)
          omega

lemma pollLoop_waits (env : ℕ → HttpResponse) :
    ∀ (r a : ℕ) (t : ℕ), t ∈ (pollLoop env a r).waits → t = pollIntervalMs := by
  intro r
  induction r with
  | zero => intro a t ht; simp [pollLoop] at ht
  | succ n ih =>
      intro a t ht
      rw [pollLoop] at ht
      cases hc : pollCompleted (env a) with
      | some d => rw [hc] at ht; simp at ht
      | none =>
          rw [hc] at ht
          simp only [] at ht
          cases henv : env a with
          | transportError msg => rw [henv] at ht; exact ih (a + 1) t ht
          | aborted => rw [henv] at ht; exact ih (a + 1) t ht
          | ok body =>
              rw [henv] at ht
              rcases List.mem_cons.mp ht with h | h
              · exact h
              · exact ih (a + 1) t h
          | notOk s =>
              rw [henv] at ht
              rcases List.mem_cons.mp ht with h | h
              · exact h
              · exact ih (a + 1) t h

lemma pollLoop_timeout (env : ℕ → HttpResponse) :
    ∀ (r a : ℕ), (∀ j, j < r → pollCompleted (env (a + j)) = none) →
      (pollLoop env a r).result = Except.error pollTimeoutMsg ∧
      (pollLoop env a r).attempts = r := by
  intro r
  induction r with
  | zero => intro a _; simp [pollLoop]
  | succ n ih =>
      intro a h
      have h0 : pollCompleted (env a) = none := by
        have := h 0 (Nat.succ_pos n)
        simpa using this
      have hrec := ih (a + 1) fun j hj => by
        have := h (j + 1) (by omega)
        simpa [Nat.add_assoc, Nat.add_comm 1 j] using this
      rw [pollLoop, h0]
      simp only []
      exact ⟨hrec.1, by omega⟩

lemma pollLoop_completes (env : ℕ → HttpResponse) :
    ∀ (r a k : ℕ) (d : Option ScoreResult), k < r →
      (∀ j, j < k → pollCompleted (env (a + j)) = none) →
      pollCompleted (env (a + k)) = some d →
      (pollLoop env a r).result = Except.ok d := by
  intro r
  induction r with
  | zero => intro a k d hk; omega
  | succ n ih =>
      intro a k d hk hfirst hc
      cases k with
      | zero =>
          simp only [Nat.add_zero] at hc
          rw [pollLoop, hc]
      | succ m =>
          have h0 : pollCompleted (env a) = none := by
            have := hfirst 0 (Nat.succ_pos m)
            simpa using this
          rw [pollLoop, h0]
          simp only []
          refine ih (a + 1) m d (by omega) ?_ ?_
          · intro j hj
            have := hfirst (j + 1) (by omega)
            simpa [Nat.add_assoc, Nat.add_comm 1 j] using this
          · have : a + 1 + m = a + (m + 1) := by omega
            rw [this]
            exact hc

lemma pollLoop_ok_sound (env : ℕ → HttpResponse) :
    ∀ (r a : ℕ) (d : Option ScoreResult),
      (pollLoop env a r).result = Except.ok d →
      ∃ k, k < r ∧ pollCompleted (env (a + k)) = some d := by
  intro r
  induction r with
  | zero => intro a d h; simp [pollLoop] at h
  | succ n ih =>
      intro a d h
      rw [pollLoop] at h
      cases hc : pollCompleted (env a) with
      | some d2 =>
          rw [hc] at h
          simp only [Except.ok.injEq] at h
          exact ⟨0, Nat.succ_pos n, by simpa [h] using hc⟩
      | none =>
          rw [hc] at h
          simp only [] at h
          obtain ⟨k, hk, hck⟩ := ih (a + 1) d h
          refine ⟨k + 1, by omega, ?_⟩
          have : a + (k + 1) = a + 1 + k := by omega
          rw [this]
          exact hck

/-- C6 (confirmed). The polling loop makes at most 30 status attempts;
every wait it performs between attempts is exactly 2000 ms; when no
attempt within the budget observes a completed status it exhausts all
30 attempts and throws the timeout error — it returns a payload only if
some attempt within the budget actually observed a completed status, so
no score is ever fabricated; any non-completed attempt, including a
transport error, is followed by further attempts rather than aborting. -/
theorem poll_budget_c6 (env : ℕ → HttpResponse) :
    (pollForUpdates env).attempts ≤ maxPollAttempts ∧
    (∀ t ∈ (pollForUpdates env).waits, t = pollIntervalMs) ∧
    ((∀ k, k < maxPollAttempts → pollCompleted (env k) = none) →
      (pollForUpdates env).result = Except.error pollTimeoutMsg ∧
      (pollForUpdates env).attempts = maxPollAttempts) ∧
    (∀ (k : ℕ) (d : Option ScoreResult), k < maxPollAttempts →
      (∀ j, j < k → pollCompleted (env j) = none) →
      pollCompleted (env k) = some d →
      (pollForUpdates env).result = Except.ok d) ∧
    (∀ d : Option ScoreResult, (pollForUpdates env).result = Except.ok d →
      ∃ k, k < maxPollAttempts ∧ pollCompleted (env k) = some d) := by
  refine ⟨pollLoop_attempts_le env maxPollAttempts 0,
    fun t ht => pollLoop_waits env maxPollAttempts 0 t ht, ?_, ?_, ?_⟩
  · intro h
    exact pollLoop_timeout env maxPollAttempts 0 fun j hj => by
      simpa using h j hj
  · intro k d hk hfirst hc
    exact pollLoop_completes env maxPollAttempts 0 k d hk
      (fun j hj => by simpa using hfirst j hj) (by simpa using hc)
  · intro d h
    obtain ⟨k, hk, hck⟩ := pollLoop_ok_sound env maxPollAttempts 0 d h
    exact ⟨k, hk, by simpa using hck⟩

/-- A concrete payload used by witnesses. -/
def sampleResult : ScoreResult :=
  { brand := some "Sony", score := some 70, certainty := some "high",
    product_id := none }

/-- Witness for C6: a gateway that always fails with a transport error
yields the timeout error after 30 attempts; a gateway that errors twice
and then completes yields the completed payload. -/
theorem poll_budget_c6_witness :
    (pollForUpdates fun _ => HttpResponse.transportError "network down").result =
      Except.error pollTimeoutMsg ∧
    (pollForUpdates fun k =>
      if k = 2 then
        HttpResponse.ok
          { success := true, status := some "completed",
            data := some sampleResult, product_id := none }
      else HttpResponse.transportError "network down").result =
      Except.ok (some sampleResult) := by
  constructor
  · exact ((poll_budget_c6 fun _ => HttpResponse.transportError "network down").2.2.1
      (fun k _ => rfl)).1
  · exact (poll_budget_c6 _).2.2.2.1 2 (some sampleResult) (by norm_num [maxPollAttempts])
      (by intro j hj; interval_cases j <;> rfl) (by rfl)

/-- The response object passed to `sendResponse`. -/
structure SWResponse where
  success : Bool
  data : Option ScoreResult
  error : Option String
  message : Option String
  deriving DecidableEq, Repr

/-- The mutable state of the production service worker: the brand cache
(`sustainabilityCache`), the scraped-product history, and the badge and
per-tab cache of the single modelled tab. `tabBadge = some s` means the
badge text was last set from the score value `s` (itself absent when
the payload carried no score). -/
structure SWState where
  sustainabilityCache : List (String × ScoreResult)
  scrapedProductsHistory : List ProductInfo
  tabBadge : Option (Option ℤ)
  tabDataCache : Option ScoreResult
  deriving DecidableEq, Repr

/-- The state at service worker start-up. -/
def initialSWState : SWState :=
  { sustainabilityCache := [], scrapedProductsHistory := [],
    tabBadge := none, tabDataCache := none }

/-- The response of the catch branch (lines 217-221). -/
def dbErrorResponse : SWResponse :=
  { success := false, data := none,
    error := some "Database connection required for sustainability data",
    message := some "This extension requires an active database connection. Please ensure you have internet connectivity and the database is available." }

/-- The final response of the success path (lines 239-243): success is
the truthiness of the data. -/
def finalResponse (d : Option ScoreResult) : SWResponse :=
  { success := d.isSome, data := d,
    error := if d.isSome then none else some "No sustainability data available",
    message := none }

/-- The cache key of a product (line 175):
`productInfo.brand?.toLowerCase()`. -/
def cacheKeyOf (p : ProductInfo) : Option String :=
  p.brand.map jsToLower

/-- The history push of lines 160-172: unshift the product, then pop
when the length exceeds 100. -/
def historyUpdate (st : SWState) (p : ProductInfo) : SWState :=
  if jsTruthy p.brand || jsTruthy p.name then
    { st with scrapedProductsHistory := (p :: st.scrapedProductsHistory).take 100 }
  else st

/-- The state effect of the tail of `handleSustainabilityCheck` (lines
225-237) at the moment its awaited gateway data arrives: the cache
write, guarded by truthy data and a truthy cache key, then the badge and
per-tab-cache update, guarded by a tab sender and truthy data. No URL or
request token is consulted: the effect applies to whatever the state is
when the asynchronous chain resolves. -/
def applyCompletion (st : SWState) (cacheKey : Option String)
    (d : Option ScoreResult) (senderTab : Bool) : SWState :=
  let st1 :=
    match d, cacheKey with
    | some data, some k =>
        if k ≠ "" then
          { st with sustainabilityCache := (k, data) :: st.sustainabilityCache }
        else st
    | _, _ => st
  match d with
  | some data =>
      if senderTab then
        { st1 with tabBadge := some data.score, tabDataCache := some data }
      else st1
  | none => st1

/-- The cache-miss path of `handleSustainabilityCheck` (lines 192-243):
fetch from the gateway, poll when the result is pending with a task id
(lines 203-209), convert any thrown error into the database-error
response without touching the state (lines 211-223), otherwise apply
the completion effect and respond. -/
def handleMiss (st : SWState) (cacheKey : Option String) (p : ProductInfo)
    (env : GatewayEnv) (senderTab : Bool) : SWState × SWResponse × ℕ :=
  match fetchFromApi p env with
  | (Except.error _, n) => (st, dbErrorResponse, n)
  | (Except.ok dOpt, n) =>
      match dOpt with
      | some d =>
          if d.certainty = some "pending" ∧ jsTruthy d.product_id then
            let po := pollForUpdates env.statusResponses
            match po.result with
            | Except.error _ => (st, dbErrorResponse, n + po.attempts)
            | Except.ok d2 =>
                (applyCompletion st cacheKey d2 senderTab, finalResponse d2,
                 n + po.attempts)
          else
            (applyCompletion st cacheKey (some d) senderTab,
             finalResponse (some d), n)
      | none => (applyCompletion st cacheKey none senderTab, finalResponse none, n)

/-- `handleSustainabilityCheck` of the production service worker (lines
155-252): history push, cache-first lookup on the lowercased brand
(lines 174-190, returning the cached payload with no network call on a
hit), then the miss path. Returns the new state, the response passed to
`sendResponse`, and the number of network requests issued. -/
def handleSustainabilityCheck (st : SWState) (p : ProductInfo)
    (env : GatewayEnv) (senderTab : Bool) : SWState × SWResponse × ℕ :=
  let st0 := historyUpdate st p
  match cacheKeyOf p with
  | some k =>
      if k ≠ "" then
        match assocFind k st0.sustainabilityCache with
        | some data =>
            (if senderTab then
              { st0 with tabBadge := some data.score, tabDataCache := some data }
            else st0,
             { success := true, data := some data, error := none, message := none },
             0)
        | none => handleMiss st0 (some k) p env senderTab
      else handleMiss st0 (some k) p env senderTab
  | none => handleMiss st0 none p env senderTab

/-- One incoming checkSustainability message with its gateway
environment. -/
structure SWEvent where
  product : ProductInfo
  env : GatewayEnv
  senderTab : Bool

/-- Processing of a list of messages each of which runs to completion
before the next arrives — the non-overlapping regime, in which the span
from the cache check (line 176) to the cache write (line 227) of one
message contains no other message. Overlapping executions interleave at
the awaited fetch and poll calls instead; each such resolution applies
`applyCompletion` to whatever the state is at that moment, which this
function does not cover. -/
def runSession (st : SWState) : List SWEvent → SWState
  | [] => st
  | e :: rest =>
      runSession (handleSustainabilityCheck st e.product e.env e.senderTab).1 rest

lemma historyUpdate_cache (st : SWState) (p : ProductInfo) :
    (historyUpdate st p).sustainabilityCache = st.sustainabilityCache := by
  unfold historyUpdate
  split <;> rfl

lemma applyCompletion_cache_eq (st : SWState) (ck : Option String)
    (d : Option ScoreResult) (s : Bool) :
    (applyCompletion st ck d s).sustainabilityCache = st.sustainabilityCache ∨
    ∃ data k, d = some data ∧ ck = some k ∧ k ≠ "" ∧
      (applyCompletion st ck d s).sustainabilityCache =
        (k, data) :: st.sustainabilityCache := by
  unfold applyCompletion
  rcases d with _ | data
  · left
    rfl
  · rcases ck with _ | k
    · left
      cases s <;> rfl
    · by_cases hk : k = ""
      · left
        subst hk
        cases s <;> simp
      · right
        exact ⟨data, k, rfl, rfl, hk, by cases s <;> simp [hk]⟩

lemma applyCompletion_preserves (st : SWState) (ck : Option String)
    (d : Option ScoreResult) (senderTab : Bool)
    (hck : ∀ k0, ck = some k0 → k0 = "" ∨ assocFind k0 st.sustainabilityCache = none)
    {k : String} {v : ScoreResult}
    (h : assocFind k st.sustainabilityCache = some v) :
    assocFind k (applyCompletion st ck d senderTab).sustainabilityCache = some v := by
  rcases applyCompletion_cache_eq st ck d senderTab with hc | ⟨data, k0, hd, hcks, hk0, hc⟩
  · rw [hc]
    exact h
  · rw [hc]
    have h0 : assocFind k0 st.sustainabilityCache = none := by
      rcases hck k0 hcks with h1 | h1
      · exact absurd h1 hk0
      · exact h1
    have hne : k0 ≠ k := fun he => by
      rw [he] at h0
      rw [h0] at h
      exact Option.noConfusion h
    rw [assocFind, if_neg hne]
    exact h

lemma handleMiss_preserves (st : SWState) (ck : Option String) (p : ProductInfo)
    (env : GatewayEnv) (senderTab : Bool)
    (hck : ∀ k0, ck = some k0 → k0 = "" ∨ assocFind k0 st.sustainabilityCache = none)
    {k : String} {v : ScoreResult}
    (h : assocFind k st.sustainabilityCache = some v) :
    assocFind k (handleMiss st ck p env senderTab).1.sustainabilityCache = some v := by
  unfold handleMiss
  cases hf : fetchFromApi p env with
  | mk res n =>
      cases res with
      | error e => exact h
      | ok dOpt =>
          cases dOpt with
          | none => exact applyCompletion_preserves st ck none senderTab hck h
          | some d =>
              by_cases hp : d.certainty = some "pending" ∧ jsTruthy d.product_id
              · simp only [hp, and_self, if_true]
                cases hpo : (pollForUpdates env.statusResponses).result with
                | error e => exact h
                | ok d2 => exact applyCompletion_preserves st ck d2 senderTab hck h
              · simp only [if_neg hp]
                exact applyCompletion_preserves st ck (some d) senderTab hck h

lemma handle_preserves (st : SWState) (p : ProductInfo) (env : GatewayEnv)
    (senderTab : Bool) {k : String} {v : ScoreResult}
    (h : assocFind k st.sustainabilityCache = some v) :
    assocFind k
      (handleSustainabilityCheck st p env senderTab).1.sustainabilityCache = some v := by
  have h0 : assocFind k (historyUpdate st p).sustainabilityCache = some v := by
    rw [historyUpdate_cache]
    exact h
  have hck0 : (historyUpdate st p).sustainabilityCache = st.sustainabilityCache :=
    historyUpdate_cache st p
  unfold handleSustainabilityCheck
  cases hkc : cacheKeyOf p with
  | none =>
      exact handleMiss_preserves _ none p env senderTab (fun k0 hk0 => by
        exact Option.noConfusion hk0) h0
  | some k0 =>
      dsimp only
      by_cases hk0 : k0 ≠ ""
      · rw [if_pos hk0]
        cases hl : assocFind k0 (historyUpdate st p).sustainabilityCache with
        | some data =>
            cases senderTab <;> simpa using h0
        | none =>
            exact handleMiss_preserves _ (some k0) p env senderTab
              (fun k1 hk1 => by
                cases Option.some.inj hk1
                exact Or.inr hl) h0
      · rw [if_neg hk0]
        exact handleMiss_preserves _ (some k0) p env senderTab
          (fun k1 hk1 => by
            cases Option.some.inj hk1
            exact Or.inl (not_not.mp hk0)) h0

/-- C4 (corrected). A checkSustainability message whose lowercased brand
is already a key of the brand cache is answered from the cache: the
response carries the cached payload with success, no network request is
issued and the cache itself is untouched. First write wins, however,
only for messages that do not overlap: the cache write performed when an
awaited miss resolves (line 227) re-checks nothing, so it installs its
own payload as the entry for its key even when an entry for that key is
already present — the later resolution of two overlapping same-brand
misses overwrites the earlier entry (see the counterexample). Across
messages processed without overlap, an entry, once present, does keep
its value, because the only write is behind a cache miss of the same
key. -/
theorem cache_first_c4 :
    (∀ (st : SWState) (p : ProductInfo) (env : GatewayEnv) (senderTab : Bool)
        (bq : String) (r : ScoreResult),
      p.brand = some bq → jsToLower bq ≠ "" →
      assocFind (jsToLower bq) st.sustainabilityCache = some r →
      (handleSustainabilityCheck st p env senderTab).2.1 =
        { success := true, data := some r, error := none, message := none } ∧
      (handleSustainabilityCheck st p env senderTab).2.2 = 0 ∧
      (handleSustainabilityCheck st p env senderTab).1.sustainabilityCache =
        st.sustainabilityCache) ∧
    (∀ (st : SWState) (d : ScoreResult) (senderTab : Bool) (k : String),
      k ≠ "" →
      assocFind k
        (applyCompletion st (some k) (some d) senderTab).sustainabilityCache =
        some d) ∧
    (∀ (st : SWState) (events : List SWEvent) (k : String) (r : ScoreResult),
      assocFind k st.sustainabilityCache = some r →
      assocFind k (runSession st events).sustainabilityCache = some r) := by
  refine ⟨?_, ?_, ?_⟩
  · intro st p env senderTab bq r hb hne hlook
    have hck : cacheKeyOf p = some (jsToLower bq) := by
      simp [cacheKeyOf, hb]
    have hl0 : assocFind (jsToLower bq) (historyUpdate st p).sustainabilityCache =
        some r := by
      rw [historyUpdate_cache]
      exact hlook
    unfold handleSustainabilityCheck
    rw [hck]
    dsimp only
    rw [if_pos hne, hl0]
    refine ⟨rfl, rfl, ?_⟩
    cases senderTab <;> simp [historyUpdate_cache]
  · intro st d senderTab k hk
    unfold applyCompletion
    cases senderTab <;> simp [hk, assocFind]
  · intro st events
    induction events generalizing st with
    | nil => intro k r h; exact h
    | cons e rest ih =>
        intro k r h
        exact ih _ k r (handle_preserves st e.product e.env e.senderTab h)

/-- An arbitrary concrete gateway environment for witnesses. -/
def sampleEnv : GatewayEnv :=
  { productResponse := HttpResponse.notOk 500,
    scoreResponse := HttpResponse.notOk 500,
    statusResponses := fun _ => HttpResponse.notOk 500 }

/-- Payload of the earlier-resolving one of two overlapping requests. -/
def resultFirst : ScoreResult :=
  { brand := some "Sony", score := some 60, certainty := some "medium",
    product_id := none }

/-- Payload of the later-resolving one of two overlapping requests. -/
def resultSecond : ScoreResult :=
  { brand := some "Sony", score := some 75, certainty := some "high",
    product_id := none }

/-- Witness for C4: with "sony" cached, a message for brand "Sony" is
answered from the cache with zero network requests; and a resolving
completion for key "sony" installs its payload as the entry. -/
theorem cache_first_c4_witness :
    (handleSustainabilityCheck
      { initialSWState with sustainabilityCache := [("sony", sampleResult)] }
      { brand := some "Sony", name := some "WH-1000XM5", url := none,
        specifications := [] }
      sampleEnv true).2.2 = 0 ∧
    (handleSustainabilityCheck
      { initialSWState with sustainabilityCache := [("sony", sampleResult)] }
      { brand := some "Sony", name := some "WH-1000XM5", url := none,
        specifications := [] }
      sampleEnv true).2.1.data = some sampleResult ∧
    assocFind "sony"
      (applyCompletion initialSWState (some "sony") (some resultFirst)
        true).sustainabilityCache = some resultFirst := by
  have h := cache_first_c4.1
    { initialSWState with sustainabilityCache := [("sony", sampleResult)] }
    { brand := some "Sony", name := some "WH-1000XM5", url := none,
      specifications := [] }
    sampleEnv true "Sony" sampleResult rfl (by decide) (by decide)
  have h2 := cache_first_c4.2.1 initialSWState resultFirst true "sony" (by decide)
  exact ⟨h.2.1, by rw [h.1], h2⟩

/-- Counterexample to C4 as stated (first write wins). The cache check
(line 176) and the cache write (line 227) straddle the awaited fetch and
poll calls, so two overlapping messages for brand "sony" both observe
the empty cache and miss; the earlier resolution writes its payload,
then the later resolution, whose write re-checks nothing, writes again,
and the cache entry thereafter resolves to the later payload: the entry
written first did not keep its value within the session. -/
theorem cache_first_c4_cex :
    assocFind "sony" initialSWState.sustainabilityCache = none ∧
    assocFind "sony"
      (applyCompletion initialSWState (some "sony") (some resultFirst)
        true).sustainabilityCache = some resultFirst ∧
    assocFind "sony"
      (applyCompletion
        (applyCompletion initialSWState (some "sony") (some resultFirst) true)
        (some "sony") (some resultSecond) true).sustainabilityCache =
      some resultSecond ∧
    resultSecond ≠ resultFirst := by
  exact ⟨rfl, by decide, by decide, by decide⟩

/-- C7 (corrected). The production service worker applies an
asynchronously arriving result unconditionally: whenever a completion
with data reaches a tab sender, the badge and the per-tab cache are
overwritten with that result, whatever newer result was applied in the
meantime — last arrival wins. No current-URL or request token exists in
the code, so a stale poll loop that resolves after navigation does
overwrite the newer badge (the claimed discard check is absent). -/
theorem stale_overwrite_c7 (st : SWState) (ck : Option String) (r : ScoreResult) :
    (applyCompletion st ck (some r) true).tabBadge = some r.score ∧
    (applyCompletion st ck (some r) true).tabDataCache = some r := by
  unfold applyCompletion
  cases ck with
  | none => exact ⟨rfl, rfl⟩
  | some k =>
      by_cases hk : k ≠ "" <;> simp [hk]

/-- The payload of the newer request (dispatched after navigation). -/
def resultB : ScoreResult :=
  { brand := some "BrandB", score := some 80, certainty := some "high",
    product_id := none }

/-- The payload of the stale request (resolving late). -/
def resultA : ScoreResult :=
  { brand := some "BrandA", score := some 30, certainty := some "high",
    product_id := none }

/-- Counterexample to C7 as stated: after the newer result B sets the
badge to 80, the late arrival of the stale result A sets it to 30 — the
stale result is not discarded and does overwrite the newer badge. -/
theorem stale_overwrite_c7_cex :
    (applyCompletion (applyCompletion initialSWState (some "brandb") (some resultB) true)
        (some "branda") (some resultA) true).tabBadge = some (some 30) ∧
    (applyCompletion initialSWState (some "brandb") (some resultB) true).tabBadge =
      some (some 80) ∧
    (applyCompletion (applyCompletion initialSWState (some "brandb") (some resultB) true)
        (some "branda") (some resultA) true).tabBadge ≠
      (applyCompletion initialSWState (some "brandb") (some resultB) true).tabBadge := by
  refine ⟨by decide, by decide, by decide⟩

/-- C10 (confirmed). For a product whose brand is absent — whatever its
name — `fetchFromApi` throws "Missing brand name" without issuing any
network request, and `handleSustainabilityCheck` answers with the
unsuccessful database-error response, performs no network request and
leaves the brand cache untouched. -/
theorem missing_brand_c10 (st : SWState) (p : ProductInfo) (env : GatewayEnv)
    (senderTab : Bool) (hb : p.brand = none) :
    fetchFromApi p env = (Except.error "Missing brand name", 0) ∧
    (handleSustainabilityCheck st p env senderTab).2.1 = dbErrorResponse ∧
    (handleSustainabilityCheck st p env senderTab).2.1.success = false ∧
    ((handleSustainabilityCheck st p env senderTab).2.1.error).isSome = true ∧
    (handleSustainabilityCheck st p env senderTab).2.2 = 0 ∧
    (handleSustainabilityCheck st p env senderTab).1.sustainabilityCache =
      st.sustainabilityCache := by
  have hfetch : fetchFromApi p env = (Except.error "Missing brand name", 0) := by
    unfold fetchFromApi
    simp [jsTruthy, hb]
  have hck : cacheKeyOf p = none := by
    simp [cacheKeyOf, hb]
  have hhandle : handleSustainabilityCheck st p env senderTab =
      (historyUpdate st p, dbErrorResponse, 0) := by
    unfold handleSustainabilityCheck
    rw [hck]
    unfold handleMiss
    rw [hfetch]
  refine ⟨hfetch, ?_, ?_, ?_, ?_, ?_⟩ <;>
    rw [hhandle] <;>
    simp [dbErrorResponse, historyUpdate_cache]

/-- Witness for C10: a record with a name but no brand is rejected with
the error response, zero network requests and an unchanged cache. -/
theorem missing_brand_c10_witness :
    fetchFromApi
      { brand := none, name := some "Sony WH-1000XM5 Wireless Headphones",
        url := none, specifications := [] } sampleEnv =
      (Except.error "Missing brand name", 0) ∧
    (handleSustainabilityCheck initialSWState
      { brand := none, name := some "Sony WH-1000XM5 Wireless Headphones",
        url := none, specifications := [] } sampleEnv true).2.1.success = false := by
  have h := missing_brand_c10 initialSWState
    { brand := none, name := some "Sony WH-1000XM5 Wireless Headphones",
      url := none, specifications := [] } sampleEnv true rfl
  exact ⟨h.1, h.2.2.1⟩

end EcoShop
